import Mathlib

/-!
Verification model of the Twitter v2 filtered-stream client
(package stream: StreamService / Stream / retry / receive / getMessage,
plus the top-level session lifecycle).

The Go source is embedded shallowly:
* pure data (StreamData, StreamFilterParams, requests) becomes structures;
* the external JSON decoding library is a parameter
  (unmarshal : String -> Option StreamData), a line being well formed
  exactly when unmarshal succeeds on it;
* the response body handed to the receive loop is the list of lines its
  scanner yields before end of stream or read error;
* the one-shot done channel is a level-triggered boolean schedule sampled
  at the points where the code polls it;
* the retry controller consumes a list of per-request outcomes of
  client.Do (transport failure, or a status code with a body);
* goroutine/caller interleavings relevant to shutdown are a small-step
  transition relation on a session state.
-/

namespace TwitterV2

/-- Modelled from the spec: the Tweet payload type lives outside the
provided sources; the spec describes it as the optional primary domain
object of a decoded message, carrying an id. -/
structure Tweet where
  id : String
  deriving DecidableEq

/-- One matching-rules entry of a stream message: an id/tag pair
(anonymous struct inside StreamData in the source). -/
structure MatchingRule where
  id : String
  tag : String
  deriving DecidableEq

/-- StreamData: decoded stream message — an optional tweet plus the
matching-rules descriptors. -/
structure StreamData where
  tweet : Option Tweet
  matchingRules : List MatchingRule
  deriving DecidableEq

/-- getMessage unmarshals a token into a StreamData. On unmarshal error it
returns nil and the error (modelled: none); otherwise the decoded data.
The JSON library is external, so it enters as the parameter u. -/
def getMessage (u : String → Option StreamData) (token : String) :
    Option StreamData :=
  match u token with
  | none => none
  | some data => some data

/-- Stream.receive, auxiliary form. The loop polls the done channel at its
top and again in the select just before a send; t counts those polls, and
done is the level-triggered schedule of the done channel at each poll.
Modelled from the spec where the source file is absent: readNext yields the
scanned lines one by one (delimiter stripped) and signals an error at end
of stream, and the helper stopped is a non-blocking poll of done.
On a read error the loop returns; an empty line is a keep-alive and is
skipped; otherwise, if done is closed at the select, the loop returns
without sending, else the decoded message (nil on decode error) is sent. -/
def receiveAux (u : String → Option StreamData) (done : Nat → Bool)
    (t : Nat) (body : List String) : List (Option StreamData) :=
  if done t then []
  else
    match body with
    | [] => []
    | data :: rest =>
      if data = "" then receiveAux u done (t + 1) rest
      else if done (t + 1) then []
      else getMessage u data :: receiveAux u done (t + 2) rest

/-- Stream.receive: scans the response body, decodes each non-empty line,
and sends the results on the Messages channel (here: returns, in send
order, the values sent). -/
def receive (u : String → Option StreamData) (done : Nat → Bool)
    (body : List String) : List (Option StreamData) :=
  receiveAux u done 0 body

/-- A done channel that is never closed. -/
def neverDone : Nat → Bool := fun _ => false

/-- A decoder on which every line is malformed. -/
def unmarshalNone : String → Option StreamData := fun _ => none

/-- The stop sentinel of the backoff library (backoff.Stop, duration -1):
NextBackOff returns it to signal that no more retries should be made. -/
def backoffStop : Int := -1

/-- Modelled from the spec: the two backoff constructors
(newExponentialBackOff, newAggressiveExponentialBackOff) and the external
backoff library are outside the provided sources. A policy is its schedule
of wait durations: NextBackOff pops the next wait and yields the stop
sentinel once the schedule is exhausted; Reset restores the initial
schedule. -/
structure BackOff where
  initial : List Int
  remaining : List Int
  deriving DecidableEq

/-- NextBackOff: next wait duration of the policy, or the stop sentinel
when the policy is exhausted, together with the advanced policy state. -/
def BackOff.nextBackOff (b : BackOff) : Int × BackOff :=
  match b.remaining with
  | [] => (backoffStop, b)
  | w :: ws => (w, { b with remaining := ws })

/-- Reset: return the policy to its initial interval schedule. -/
def BackOff.reset (b : BackOff) : BackOff :=
  { b with remaining := b.initial }

/-- An exhausted backoff policy (NextBackOff yields the stop sentinel). -/
def emptyBackOff : BackOff := ⟨[], []⟩

/-- Outcome of one client.Do call: a transport error, or a response with a
status code and a body (the lines the body will yield). -/
inductive DoOutcome where
  | fail
  | resp (status : Nat) (body : List String)
  deriving DecidableEq

/-- What the model records about one iteration of the retry loop: the
status seen (none on transport error), whether a response body was
obtained, whether that body was closed before the iteration ended, and the
messages sent during the iteration. -/
structure CycleTrace where
  status : Option Nat
  bodyObtained : Bool
  bodyClosed : Bool
  emitted : List (Option StreamData)
  deriving DecidableEq

/-- How the retry loop ended.  panicked: client.Do returned an error and
the goroutine panicked (crashing the process).  unexpectedStatus: the
default branch of the status switch returned.  stopSentinel: the selected
backoff policy yielded the stop sentinel.  doneSignal: the loop condition
saw the done channel closed.  fuelOut: the supplied outcome list was
exhausted while the loop would have kept going. -/
inductive RetryExit where
  | panicked
  | unexpectedStatus
  | stopSentinel
  | doneSignal
  | fuelOut
  deriving DecidableEq

/-- Result of running the retry loop: exit cause plus per-iteration
trace (one entry per request issued). -/
structure RetryResult where
  exit : RetryExit
  trace : List CycleTrace
  deriving DecidableEq

/-- One arm of the status switch of Stream.retry, given the current
policies and the wait variable.  200: run receive on the body, then reset
both policies (wait is left as is).  503: wait becomes the next standard
backoff.  420 or 429: wait becomes the next aggressive backoff.  Anything
else: close the body and return (abandon = true).  In every arm the body
is closed before the iteration ends (default arm closes before returning;
the others close right after the switch). -/
structure CycleOut where
  exp : BackOff
  agg : BackOff
  wait : Int
  emitted : List (Option StreamData)
  bodyClosed : Bool
  abandon : Bool
  deriving DecidableEq

/-- The status switch of Stream.retry for one response (see CycleOut). -/
def retryCycle (u : String → Option StreamData) (rdoneK : Nat → Bool)
    (exp agg : BackOff) (wait : Int) (status : Nat) (body : List String) :
    CycleOut :=
  if status = 200 then
    ⟨exp.reset, agg.reset, wait, receive u rdoneK body, true, false⟩
  else if status = 503 then
    ⟨(exp.nextBackOff).2, agg, (exp.nextBackOff).1, [], true, false⟩
  else if status = 420 ∨ status = 429 then
    ⟨exp, (agg.nextBackOff).2, (agg.nextBackOff).1, [], true, false⟩
  else
    ⟨exp, agg, wait, [], true, true⟩

/-- Stream.retry, auxiliary form.  k is the iteration index; done k is the
value the loop condition reads from the done channel at the top of
iteration k, and rdone k is the poll schedule receive sees during
iteration k.  The wait variable starts at zero and persists across
iterations.  Each iteration: if done, exit; issue the request (consume the
next DoOutcome); on transport error panic; otherwise run the status
switch; if the default arm ran, return; after closing the body, if wait
equals the stop sentinel, return; else sleep the wait (interruptible,
observed at the next loop-top poll) and continue.
Modelled from the spec where the source file is absent: the helpers
stopped (non-blocking poll of done) and sleepOrDone (interruptible
sleep). -/
def retryAux (u : String → Option StreamData) (done : Nat → Bool)
    (rdone : Nat → Nat → Bool) (k : Nat) (exp agg : BackOff) (wait : Int)
    (cycles : List DoOutcome) : RetryResult :=
  if done k then ⟨RetryExit.doneSignal, []⟩
  else
    match cycles with
    | [] => ⟨RetryExit.fuelOut, []⟩
    | DoOutcome.fail :: _ =>
      ⟨RetryExit.panicked, [⟨none, false, false, []⟩]⟩
    | DoOutcome.resp status body :: rest =>
      let c := retryCycle u (rdone k) exp agg wait status body
      let entry : CycleTrace := ⟨some status, true, c.bodyClosed, c.emitted⟩
      if c.abandon then ⟨RetryExit.unexpectedStatus, [entry]⟩
      else if c.wait = backoffStop then ⟨RetryExit.stopSentinel, [entry]⟩
      else
        let r := retryAux u done rdone (k + 1) c.exp c.agg c.wait rest
        ⟨r.exit, entry :: r.trace⟩

/-- Stream.retry as launched by newStream: iteration index 0, wait
initialised to zero (var wait time.Duration). -/
def retry (u : String → Option StreamData) (done : Nat → Bool)
    (rdone : Nat → Nat → Bool) (exp agg : BackOff)
    (cycles : List DoOutcome) : RetryResult :=
  retryAux u done rdone 0 exp agg 0 cycles

/-- The retry outcome models a goroutine panic, which crashes the whole
process: nothing is returned to the caller. -/
def crashesProcess (r : RetryResult) : Prop :=
  r.exit = RetryExit.panicked

/-- A receive-poll schedule on which done is never observed closed. -/
def rdoneNever : Nat → Nat → Bool := fun _ _ => false

/-- Where the background retry goroutine stands.  running: inside the
retry loop.  atGroupDone: the loop has ended; the deferred calls run in
last-in-first-out order, so the goroutine is about to run s.group.Done()
(deferred second, hence executed first).  atCloseMessages: Done has run;
close(s.Messages) (deferred first, hence executed last) is still pending.
exited: the goroutine is gone. -/
inductive TaskPhase where
  | running
  | atGroupDone
  | atCloseMessages
  | exited
  deriving DecidableEq

/-- Where the caller's first Stop() call stands: not yet made, blocked in
s.group.Wait(), or returned. -/
inductive StopPhase where
  | idle
  | atWait
  | returned
  deriving DecidableEq

/-- Shared state of one stream session: the two goroutine/caller program
points, whether the done channel has been closed, whether the Messages
channel has been closed, and the WaitGroup counter (1 while the goroutine
has not yet run Done). -/
structure SessionState where
  task : TaskPhase
  stopPh : StopPhase
  doneClosed : Bool
  messagesClosed : Bool
  groupCount : Nat
  deriving DecidableEq

/-- State right after newStream: goroutine running, Stop not called, both
channels open, WaitGroup counter 1 (s.group.Add(1)). -/
def initSession : SessionState :=
  ⟨TaskPhase.running, StopPhase.idle, false, false, 1⟩

/-- Interleaved small steps of the background goroutine and of the
caller's first Stop() call.  The goroutine may leave its loop at any time
(done observed, stop sentinel, unexpected status, end of outcomes), then
runs its deferred calls in last-in-first-out order: s.group.Done() first,
close(s.Messages) last.  Stop() closes the done channel (only enabled
while it is still open; a second close would panic, which is modelled
separately by the stop function), force-closes the held body, and blocks
in s.group.Wait() until the counter is zero. -/
inductive SessionStep : SessionState → SessionState → Prop where
  | taskLoopExit (s : SessionState) (h : s.task = TaskPhase.running) :
      SessionStep s { s with task := TaskPhase.atGroupDone }
  | taskGroupDone (s : SessionState) (h : s.task = TaskPhase.atGroupDone) :
      SessionStep s
        { s with task := TaskPhase.atCloseMessages,
                 groupCount := s.groupCount - 1 }
  | taskCloseMessages (s : SessionState)
      (h : s.task = TaskPhase.atCloseMessages) :
      SessionStep s
        { s with task := TaskPhase.exited, messagesClosed := true }
  | stopBegin (s : SessionState) (h1 : s.stopPh = StopPhase.idle)
      (h2 : s.doneClosed = false) :
      SessionStep s
        { s with stopPh := StopPhase.atWait, doneClosed := true }
  | stopWaitReturn (s : SessionState) (h1 : s.stopPh = StopPhase.atWait)
      (h2 : s.groupCount = 0) :
      SessionStep s { s with stopPh := StopPhase.returned }

/-- States a session can reach from initSession under some interleaving. -/
def SessionReachable (s : SessionState) : Prop :=
  Relation.ReflTransGen SessionStep initSession s

/-- Result of invoking Stop() on a session snapshot.  panicked: the very
first statement, close(s.done), panicked because the channel was already
closed.  returned: close(s.done) succeeded, the held body was closed, and
s.group.Wait() returned at once (counter already zero).  waiting:
close(s.done) succeeded and the call is blocked in s.group.Wait() until
the goroutine runs Done. -/
inductive StopResult where
  | panicked
  | returned (s : SessionState)
  | waiting (s : SessionState)
  deriving DecidableEq

/-- Stream.Stop: close the done channel (panics if it is already closed),
force-close the held response body, then block in s.group.Wait() until the
background goroutine has run Done. -/
def Stop (s : SessionState) : StopResult :=
  if s.doneClosed then StopResult.panicked
  else if s.groupCount = 0 then
    StopResult.returned
      { s with doneClosed := true, stopPh := StopPhase.returned }
  else
    StopResult.waiting
      { s with doneClosed := true, stopPh := StopPhase.atWait }

/-- Session state once a first Stop() call has returned: the goroutine is
fully gone, both channels are closed, the WaitGroup counter is zero. -/
def afterFirstStop : SessionState :=
  ⟨TaskPhase.exited, StopPhase.returned, true, true, 0⟩

/-- The interleaving in which the goroutine has run its deferred
s.group.Done() but not yet the deferred close(s.Messages), and Stop() has
already returned from s.group.Wait(). -/
def raceState : SessionState :=
  ⟨TaskPhase.atCloseMessages, StopPhase.returned, true, false, 0⟩

/-- StreamFilterParams: the six comma-joined query-parameter lists. -/
structure StreamFilterParams where
  expansions : List String
  mediaFields : List String
  placeFields : List String
  pollFields : List String
  tweetFields : List String
  userFields : List String
  deriving DecidableEq

/-- An outbound HTTP request as createStreamRequest shapes it: method,
url, Authorization header, raw query string. -/
structure Request where
  method : String
  url : String
  authorization : Option String
  rawQuery : String
  deriving DecidableEq

/-- The filtered-stream endpoint constant. -/
def streamV2Endpoint : String := "https://api.twitter.com/2/tweets/search"

/-- createStreamRequest: formats the url, builds a GET request (the error
from the external request constructor is discarded with the blank
identifier; with this constant valid url the constructor succeeds), sets
the bearer Authorization header, encodes the filter params as the raw
query (the error from the external query encoder is likewise discarded),
and returns the request with a nil error.  The two external collaborators
enter as parameters newRequest and encodeQuery. -/
def createStreamRequest (newRequest : String → String → Request)
    (encodeQuery : StreamFilterParams → String)
    (params : StreamFilterParams) (token : String) :
    Request × Option String :=
  let url := streamV2Endpoint ++ "/" ++ "stream"
  let req0 := newRequest "GET" url
  let req1 := { req0 with authorization := some ("Bearer " ++ token) }
  let req2 := { req1 with rawQuery := encodeQuery params }
  (req2, none)

/-- StreamService: holds the shared client (opaque here) and the bearer
token. -/
structure StreamService where
  token : String
  deriving DecidableEq

/-- The public session handle returned by Connect (newStream never fails:
it allocates the channels and launches the goroutine). -/
structure StreamHandle where
  req : Request
  deriving DecidableEq

/-- StreamService.Connect: build the request via createStreamRequest; on
error return nil and the error, else return the new stream and nil. -/
def Connect (newRequest : String → String → Request)
    (encodeQuery : StreamFilterParams → String)
    (srv : StreamService) (params : StreamFilterParams) :
    Option StreamHandle × Option String :=
  match createStreamRequest newRequest encodeQuery params srv.token with
  | (req, none) => (some ⟨req⟩, none)
  | (_, some e) => (none, some e)

/-! Theorems. -/

/-- Helper: with a never-closed done channel, the receive loop sends, in
input order, exactly one decode result per non-empty line, independent of
the poll counter. -/
theorem receiveAux_never_eq (u : String → Option StreamData) (t : Nat)
    (body : List String) :
    receiveAux u neverDone t body =
      (body.filter fun l => l != "").map (getMessage u) := by
  induction body generalizing t with
  | nil => simp [receiveAux, neverDone]
  | cons l rest ih =>
    by_cases hl : l = ""
    · simp [receiveAux, neverDone, hl, ih]
    · simp [receiveAux, neverDone, hl, ih]

/-- Claim C5: with cancellation never set, each empty line fed to the
receive loop produces no emitted message, each non-empty line produces
exactly one send (its decode result) on the channel, and the sends appear
in the same order as their source lines. -/
theorem receive_filter_map (u : String → Option StreamData)
    (body : List String) :
    receive u neverDone body =
      (body.filter fun l => l != "").map (getMessage u) :=
  receiveAux_never_eq u 0 body

/-- Claim C1 counterexample: a single malformed line (decode fails) does
not leave the channel untouched — the receive loop sends a nil message
(none) for it, so the emitted sequence is [none], not []. -/
theorem receive_malformed_cex :
    receive unmarshalNone neverDone ["\x7b"] = [none] ∧
    receive unmarshalNone neverDone ["\x7b"] ≠ [] := by
  constructor
  · decide
  · decide

/-- Claim C1 as amended: for every non-empty line whose decode fails, the
receive loop discards the decode error and continues reading subsequent
lines exactly as it would process them alone — a malformed line never
terminates the loop — but a nil message (none) is sent on the channel for
the malformed line rather than nothing. -/
theorem receive_malformed_amended (u : String → Option StreamData)
    (l : String) (rest : List String) (hl : l ≠ "") (hu : u l = none) :
    receive u neverDone (l :: rest) = none :: receive u neverDone rest := by
  show receiveAux u neverDone 0 (l :: rest) = none :: receiveAux u neverDone 0 rest
  rw [receiveAux_never_eq, receiveAux_never_eq]
  simp [hl, getMessage, hu]

/-- Claim C1 amended witness: at the concrete malformed line, the
hypotheses hold and the loop emits none and continues. -/
theorem receive_malformed_amended_witness :
    (("\x7b" : String) ≠ "" ∧ unmarshalNone "\x7b" = none) ∧
    receive unmarshalNone neverDone ["\x7b", "x"] =
      none :: receive unmarshalNone neverDone ["x"] :=
  ⟨⟨by decide, rfl⟩,
   receive_malformed_amended unmarshalNone "\x7b" ["x"] (by decide) rfl⟩

/-- Claim C8: if a non-empty line has passed the loop-top poll (done not
yet set) but the cancellation signal is set at the select poll just before
the send, the receive loop sends nothing for it and exits. -/
theorem receive_cancel_at_send (u : String → Option StreamData)
    (done : Nat → Bool) (t : Nat) (l : String) (rest : List String)
    (hl : l ≠ "") (h0 : done t = false) (h1 : done (t + 1) = true) :
    receiveAux u done t (l :: rest) = [] := by
  simp [receiveAux, h0, h1, hl]

/-- Claim C8 witness: concrete schedule where done becomes set at the
poll before the first send. -/
theorem receive_cancel_at_send_witness :
    (("x" : String) ≠ "" ∧ (fun n => n != 0) 0 = false ∧
      (fun n => n != 0) (0 + 1) = true) ∧
    receiveAux unmarshalNone (fun n => n != 0) 0 ["x", "y"] = [] :=
  ⟨⟨by decide, by decide, by decide⟩,
   receive_cancel_at_send unmarshalNone (fun n => n != 0) 0 "x" ["y"]
     (by decide) (by decide) (by decide)⟩

/-- Helper: every arm of the status switch closes the response body
before the iteration ends. -/
theorem retryCycle_closes (u : String → Option StreamData)
    (rd : Nat → Bool) (exp agg : BackOff) (wait : Int) (status : Nat)
    (body : List String) :
    (retryCycle u rd exp agg wait status body).bodyClosed = true := by
  unfold retryCycle
  split
  · rfl
  · split
    · rfl
    · split
      · rfl
      · rfl

/-- Claim C6: in a request cycle, a 503 response advances the standard
backoff policy (the aggressive one is untouched) and the loop either
returns at the stop sentinel without issuing another request or continues
with the advanced policy; a 420 or 429 response does the same with the
aggressive policy (the standard one untouched); and any other non-200
status makes the loop return with the unexpected-status exit (not the
panic exit) after this single request. -/
theorem retry_status_dispatch (u : String → Option StreamData)
    (done : Nat → Bool) (rdone : Nat → Nat → Bool) (k : Nat)
    (exp agg : BackOff) (wait : Int) (status : Nat) (body : List String)
    (rest : List DoOutcome) (hdone : done k = false) :
    (status = 503 →
      retryAux u done rdone k exp agg wait
          (DoOutcome.resp status body :: rest) =
        (if (exp.nextBackOff).1 = backoffStop then
          ⟨RetryExit.stopSentinel, [⟨some status, true, true, []⟩]⟩
        else
          ⟨(retryAux u done rdone (k + 1) (exp.nextBackOff).2 agg
              (exp.nextBackOff).1 rest).exit,
            ⟨some status, true, true, []⟩ ::
              (retryAux u done rdone (k + 1) (exp.nextBackOff).2 agg
                (exp.nextBackOff).1 rest).trace⟩)) ∧
    (status = 420 ∨ status = 429 →
      retryAux u done rdone k exp agg wait
          (DoOutcome.resp status body :: rest) =
        (if (agg.nextBackOff).1 = backoffStop then
          ⟨RetryExit.stopSentinel, [⟨some status, true, true, []⟩]⟩
        else
          ⟨(retryAux u done rdone (k + 1) exp (agg.nextBackOff).2
              (agg.nextBackOff).1 rest).exit,
            ⟨some status, true, true, []⟩ ::
              (retryAux u done rdone (k + 1) exp (agg.nextBackOff).2
                (agg.nextBackOff).1 rest).trace⟩)) ∧
    (status ≠ 200 → status ≠ 503 → status ≠ 420 → status ≠ 429 →
      retryAux u done rdone k exp agg wait
          (DoOutcome.resp status body :: rest) =
        ⟨RetryExit.unexpectedStatus, [⟨some status, true, true, []⟩]⟩) := by
  refine ⟨?_, ?_, ?_⟩
  · intro h
    subst h
    simp only [retryAux, hdone, retryCycle]
    norm_num
  · intro h
    rcases h with h | h <;>
      · subst h
        simp only [retryAux, hdone, retryCycle]
        norm_num
  · intro h200 h503 h420 h429
    simp only [retryAux, hdone, retryCycle]
    simp [h200, h503, h420, h429]

/-- Claim C6 witness: a concrete non-200, non-retryable status makes the
controller give up after that one request with the unexpected-status exit. -/
theorem retry_status_dispatch_witness :
    neverDone 0 = false ∧
    retryAux unmarshalNone neverDone rdoneNever 0 emptyBackOff emptyBackOff
        0 [DoOutcome.resp 404 []] =
      ⟨RetryExit.unexpectedStatus, [⟨some 404, true, true, []⟩]⟩ :=
  ⟨rfl,
   (retry_status_dispatch unmarshalNone neverDone rdoneNever 0 emptyBackOff
      emptyBackOff 0 404 [] [] rfl).2.2 (by decide) (by decide) (by decide)
      (by decide)⟩

/-- Claim C7: a 200 request cycle runs the receive loop and then resets
both backoff policies before the next cycle begins — the continuation of
the loop runs on exp.reset and agg.reset, whose remaining schedule is the
initial one. -/
theorem retry_reset_after_200 (u : String → Option StreamData)
    (done : Nat → Bool) (rdone : Nat → Nat → Bool) (k : Nat)
    (exp agg : BackOff) (wait : Int) (body : List String)
    (rest : List DoOutcome) (hdone : done k = false)
    (hw : wait ≠ backoffStop) :
    retryAux u done rdone k exp agg wait
        (DoOutcome.resp 200 body :: rest) =
      ⟨(retryAux u done rdone (k + 1) exp.reset agg.reset wait rest).exit,
        ⟨some 200, true, true, receive u (rdone k) body⟩ ::
          (retryAux u done rdone (k + 1) exp.reset agg.reset wait
            rest).trace⟩ ∧
    exp.reset.remaining = exp.initial ∧
    agg.reset.remaining = agg.initial := by
  refine ⟨?_, rfl, rfl⟩
  simp only [retryAux, hdone, retryCycle]
  simp [hw]

/-- Claim C7 witness: concrete 200 cycle; the continuation sees both
policies back at their initial schedules. -/
theorem retry_reset_after_200_witness :
    (neverDone 0 = false ∧ (0 : Int) ≠ backoffStop) ∧
    (BackOff.mk [5] [3]).reset.remaining = [5] ∧
    (BackOff.mk [7] []).reset.remaining = [7] :=
  ⟨⟨rfl, by decide⟩,
   ((retry_reset_after_200 unmarshalNone neverDone rdoneNever 0
      (BackOff.mk [5] [3]) (BackOff.mk [7] []) 0 [] [] rfl
      (by decide)).2.1),
   ((retry_reset_after_200 unmarshalNone neverDone rdoneNever 0
      (BackOff.mk [5] [3]) (BackOff.mk [7] []) 0 [] [] rfl
      (by decide)).2.2)⟩

/-- Claim C9: in every run of the retry loop, every iteration that
obtained a response body closed it before the iteration ended — no open
body is carried across retries or leaked when the loop returns. -/
theorem retry_closes_body (u : String → Option StreamData)
    (done : Nat → Bool) (rdone : Nat → Nat → Bool) (k : Nat)
    (exp agg : BackOff) (wait : Int) (cycles : List DoOutcome) :
    ((retryAux u done rdone k exp agg wait cycles).trace.all
      fun e => !e.bodyObtained || e.bodyClosed) = true := by
  induction cycles generalizing k exp agg wait with
  | nil =>
    rw [retryAux.eq_def]
    split <;> rfl
  | cons c rest ih =>
    rw [retryAux.eq_def]
    split
    · rfl
    · cases c with
      | fail => rfl
      | resp status body =>
        simp only []
        split
        · simp [retryCycle_closes]
        · split
          · simp [retryCycle_closes]
          · simp [retryCycle_closes, ih]

/-- Claim C3 counterexample: when client.Do fails with a transport error,
the retry goroutine panics — the model's crash exit — so the error is not
surfaced to the caller as a returned error; it crashes the process. -/
theorem retry_transport_cex :
    crashesProcess
      (retry unmarshalNone neverDone rdoneNever emptyBackOff emptyBackOff
        [DoOutcome.fail]) := by
  unfold crashesProcess
  decide

/-- Claim C3 as amended: for every execution in which issuing the request
fails with a transport error, the session aborts immediately without
retrying (exactly one request appears in the trace, whatever outcomes
would have followed), but the failure is raised as a panic in the
background goroutine — which crashes the process — rather than being
propagated to the caller as an error value. -/
theorem retry_transport_panics (u : String → Option StreamData)
    (done : Nat → Bool) (rdone : Nat → Nat → Bool) (k : Nat)
    (exp agg : BackOff) (wait : Int) (rest : List DoOutcome)
    (hdone : done k = false) :
    retryAux u done rdone k exp agg wait (DoOutcome.fail :: rest) =
      ⟨RetryExit.panicked, [⟨none, false, false, []⟩]⟩ := by
  simp [retryAux, hdone]

/-- Claim C3 amended witness: concrete transport failure followed by a
would-be 200: the loop panics after the single failed request. -/
theorem retry_transport_panics_witness :
    neverDone 0 = false ∧
    retryAux unmarshalNone neverDone rdoneNever 0 emptyBackOff emptyBackOff
        0 [DoOutcome.fail, DoOutcome.resp 200 []] =
      ⟨RetryExit.panicked, [⟨none, false, false, []⟩]⟩ :=
  ⟨rfl,
   retry_transport_panics unmarshalNone neverDone rdoneNever 0 emptyBackOff
     emptyBackOff 0 [DoOutcome.resp 200 []] rfl⟩

/-- Helper: the interleaving in which the goroutine exits on its own,
runs its deferred Done, and Stop then runs to completion before the
deferred close of the Messages channel executes, is reachable. -/
theorem reach_raceState : SessionReachable raceState := by
  refine Relation.ReflTransGen.head
    (SessionStep.taskLoopExit initSession rfl) ?_
  refine Relation.ReflTransGen.head
    (SessionStep.taskGroupDone _ rfl) ?_
  refine Relation.ReflTransGen.head
    (SessionStep.stopBegin _ rfl rfl) ?_
  exact Relation.ReflTransGen.single
    (SessionStep.stopWaitReturn _ rfl rfl)

/-- Helper: the quiescent state after a first Stop call has returned and
the goroutine is fully gone is reachable. -/
theorem reach_afterFirstStop : SessionReachable afterFirstStop :=
  Relation.ReflTransGen.tail reach_raceState
    (SessionStep.taskCloseMessages raceState rfl)

/-- Claim C4: the session can reach a state in which Stop has returned
while the Messages channel is still open — the deferred calls of the
retry goroutine run in last-in-first-out order, so s.group.Done() (which
unblocks Stop) executes before close(s.Messages), contradicting the claim
that the channel is closed by the time stop returns. -/
theorem stop_return_before_messages_close :
    SessionReachable raceState ∧
    raceState.stopPh = StopPhase.returned ∧
    raceState.messagesClosed = false :=
  ⟨reach_raceState, rfl, rfl⟩

/-- Claim C2 counterexample: from the reachable state in which a first
Stop call has returned (goroutine gone, both channels closed), a second
Stop call panics at its first statement, close(s.done), because the done
channel is already closed. -/
theorem stop_twice_cex :
    SessionReachable afterFirstStop ∧
    Stop afterFirstStop = StopResult.panicked :=
  ⟨reach_afterFirstStop, by decide⟩

/-- Claim C2 as amended: a second stop call — made once the done channel
is already closed, as it is after a first call has returned — panics
immediately at close of the done channel; it neither blocks in Wait nor
reaches any close of the Messages channel, so the message channel is not
closed a second time. -/
theorem stop_second_call_panics (s : SessionState)
    (h : s.doneClosed = true) :
    Stop s = StopResult.panicked := by
  simp [Stop, h]

/-- Claim C2 amended witness: the post-first-stop state has the done
channel closed, and a second Stop on it panics. -/
theorem stop_second_call_panics_witness :
    afterFirstStop.doneClosed = true ∧
    Stop afterFirstStop = StopResult.panicked :=
  ⟨rfl, stop_second_call_panics afterFirstStop rfl⟩

/-- Claim C10: for every request constructor, query encoder, service (any
token) and filter params, Connect returns a session and a nil error — the
errors of the external request constructor and query encoder are
discarded inside createStreamRequest, which always returns a nil error. -/
theorem connect_never_errors (newRequest : String → String → Request)
    (encodeQuery : StreamFilterParams → String) (srv : StreamService)
    (params : StreamFilterParams) :
    (Connect newRequest encodeQuery srv params).1.isSome = true ∧
    (Connect newRequest encodeQuery srv params).2 = none := by
  simp [Connect, createStreamRequest]

end TwitterV2
